import Mathlib

/-!
Verification development for the monthly theme generation script (`src/main.py`).

The script's core is the dedup/retry loop in `run_monthly_theme_generation`
(lines 251-286), built on the similarity test `is_similar` (lines 44-45), which
in turn calls `fuzz.partial_ratio` from the fuzzywuzzy library.  This file gives
a shallow embedding of that code:

* a faithful model of fuzzywuzzy's `fuzz.partial_ratio` (which itself relies on
  Python difflib's `SequenceMatcher` with `isjunk=None`), with Python floats
  modelled by exact rationals and Python's banker's rounding made explicit;
* the filtering / retry loop, with the generation callback modelled as a
  function from the call index to the batch it returns (call 0 is the first
  `generate_new_themes` call at line 258, call `i+1` is the `i`-th retry at
  line 268);
* the prompt construction `build_prompt` (lines 91-151), with the clock read
  `get_month_year()` made an explicit `month_year` argument;
* the completion parsing of `generate_new_themes` (lines 164-180), with the
  chat-completion API modelled as a function from prompt to raw output text.

The source contains an internal inconsistency: line 259 binds the filtered list
to `deduped_themes`, while lines 265, 271 and 277 read `deduped`, a name that is
never bound anywhere, so the literal code raises `NameError` as soon as the
`while` condition on line 265 is first evaluated.  `run_segment_literal` models
that literal behaviour.  `run_core` / `run_segment` model the evidently intended
loop, obtained by the one-token rename `deduped_themes` -> `deduped` (the same
reading the spec adopts in its §9 design notes).
-/

/-! ## Model of difflib `SequenceMatcher` (with `isjunk=None`)

`fuzz.partial_ratio` constructs `SequenceMatcher(None, shorter, longer)`.
Strings are modelled as `List Char`.  With `isjunk=None` the `bjunk` set is
always empty, so the junk-extension loops of `find_longest_match` are no-ops
and are omitted.  The `autojunk` heuristic (only active when the second
sequence has length >= 200) is included in `b2j`.
-/

/-- difflib's `b2j` table: the (ascending) list of positions of `c` in `b`.
When `autojunk` applies (`len(b) >= 200`), "popular" characters (count greater
than `len(b) // 100 + 1`) are removed from the table. -/
def b2j (b : List Char) (c : Char) : List Nat :=
  if b.length ≥ 200 ∧ b.count c > b.length / 100 + 1 then []
  else (b.enum.filter (fun p => p.2 = c)).map (fun p => p.1)

/-- State of difflib's `find_longest_match`: current best match
`(besti, bestj, bestsize)`. -/
structure FlmState where
  besti : Nat
  bestj : Nat
  bestsize : Nat
deriving DecidableEq, Repr

/-- One row (fixed `i`) of the dynamic program inside `find_longest_match`:
fold over the positions `j` of `a[i]` in `b` that lie in `[blo, bhi)`.
`j2len` is the previous row's run-length table (absent entries are 0, as with
Python's `j2len.get(j-1, 0)`); the row builds `newj2len` from scratch. -/
def flmRow (j2len : Nat → Nat) (i : Nat) (js : List Nat) (st : FlmState) :
    (Nat → Nat) × FlmState :=
  js.foldl
    (fun acc j =>
      let k := (if j = 0 then 0 else j2len (j - 1)) + 1
      let m := fun j' => if j' = j then k else acc.1 j'
      let st' := if k > acc.2.bestsize then ⟨i + 1 - k, j + 1 - k, k⟩ else acc.2
      (m, st'))
    ((fun _ => 0), st)

/-- The dynamic-programming phase of `find_longest_match` over
`i in range(alo, ahi)`.  For each `i`, the inner loop visits the positions of
`a[i]` in `b2j`, skipping `j < blo` (`continue`) and stopping at `j >= bhi`
(`break`); since the `b2j` lists are ascending this is the same as filtering to
`blo <= j < bhi`. -/
def flmDP (a b : List Char) (alo ahi blo bhi : Nat) : FlmState :=
  ((List.range' alo (ahi - alo)).foldl
    (fun (acc : (Nat → Nat) × FlmState) i =>
      let js := (b2j b (a.getD i ' ')).filter (fun j => blo ≤ j ∧ j < bhi)
      flmRow acc.1 i js acc.2)
    ((fun _ => 0), ⟨alo, blo, 0⟩)).2

/-- The first extension loop of `find_longest_match`:
`while besti > alo and bestj > blo and a[besti-1] == b[bestj-1]`, extend the
match downwards.  (The junk variants never fire since `bjunk` is empty.)
Fuel-driven; callers pass fuel that provably dominates the iteration count. -/
def flmExtendLow (a b : List Char) (alo blo : Nat) : Nat → FlmState → FlmState
  | 0, st => st
  | fuel + 1, st =>
    if alo < st.besti ∧ blo < st.bestj ∧
        a.getD (st.besti - 1) ' ' = b.getD (st.bestj - 1) ' ' then
      flmExtendLow a b alo blo fuel ⟨st.besti - 1, st.bestj - 1, st.bestsize + 1⟩
    else st

/-- The second extension loop of `find_longest_match`:
`while besti+bestsize < ahi and bestj+bestsize < bhi and
a[besti+bestsize] == b[bestj+bestsize]`, extend the match upwards. -/
def flmExtendHigh (a b : List Char) (ahi bhi : Nat) : Nat → FlmState → FlmState
  | 0, st => st
  | fuel + 1, st =>
    if st.besti + st.bestsize < ahi ∧ st.bestj + st.bestsize < bhi ∧
        a.getD (st.besti + st.bestsize) ' ' = b.getD (st.bestj + st.bestsize) ' ' then
      flmExtendHigh a b ahi bhi fuel ⟨st.besti, st.bestj, st.bestsize + 1⟩
    else st

/-- difflib's `find_longest_match(alo, ahi, blo, bhi)` for
`SequenceMatcher(None, a, b)`. -/
def find_longest_match (a b : List Char) (alo ahi blo bhi : Nat) : FlmState :=
  let st := flmDP a b alo ahi blo bhi
  let st := flmExtendLow a b alo blo (a.length + 1) st
  flmExtendHigh a b ahi bhi (a.length + 1) st

/-- Lexicographic order on matching blocks `(i, j, size)`, as used by Python's
`matching_blocks.sort()`. -/
def blockLe (x y : Nat × Nat × Nat) : Bool :=
  decide (x.1 < y.1 ∨ (x.1 = y.1 ∧ (x.2.1 < y.2.1 ∨ (x.2.1 = y.2.1 ∧ x.2.2 ≤ y.2.2))))

/-- Stable insertion for `sortBlocks`. -/
def insertBlock (x : Nat × Nat × Nat) : List (Nat × Nat × Nat) → List (Nat × Nat × Nat)
  | [] => [x]
  | y :: ys => if blockLe x y then x :: y :: ys else y :: insertBlock x ys

/-- Stable sort of matching blocks, modelling Python's list `sort()` under the
lexicographic tuple order. -/
def sortBlocks : List (Nat × Nat × Nat) → List (Nat × Nat × Nat)
  | [] => []
  | x :: xs => insertBlock x (sortBlocks xs)

/-- The queue-driven divide phase of `get_matching_blocks`.  Python keeps a
list used as a stack (`append` / `pop()` from the end); the head of the Lean
list plays the role of the stack top, so the two recursive subproblems are
pushed in the source's order (left first, then right, which is popped first).
Fuel-driven: each iteration strictly decreases the sum of `2*(ahi-alo)+1` over
the queue, which starts at `2*a.length + 1`, so the fuel passed by
`get_matching_blocks` always suffices. -/
def gmbLoop (a b : List Char) :
    Nat → List (Nat × Nat × Nat × Nat) → List (Nat × Nat × Nat) → List (Nat × Nat × Nat)
  | 0, _, acc => acc
  | _ + 1, [], acc => acc
  | fuel + 1, (alo, ahi, blo, bhi) :: rest, acc =>
    let m := find_longest_match a b alo ahi blo bhi
    if m.bestsize = 0 then gmbLoop a b fuel rest acc
    else
      let rest := if alo < m.besti ∧ blo < m.bestj then (alo, m.besti, blo, m.bestj) :: rest else rest
      let rest := if m.besti + m.bestsize < ahi ∧ m.bestj + m.bestsize < bhi then
          (m.besti + m.bestsize, ahi, m.bestj + m.bestsize, bhi) :: rest else rest
      gmbLoop a b fuel rest ((m.besti, m.bestj, m.bestsize) :: acc)

/-- The adjacent-block merging pass at the end of `get_matching_blocks`
(state `(i1, j1, k1)` starts at `(0, 0, 0)`). -/
def mergeAdjacent : List (Nat × Nat × Nat) → Nat × Nat × Nat → List (Nat × Nat × Nat) →
    List (Nat × Nat × Nat)
  | [], (i1, j1, k1), acc => if k1 ≠ 0 then acc ++ [(i1, j1, k1)] else acc
  | (i2, j2, k2) :: rest, (i1, j1, k1), acc =>
    if i1 + k1 = i2 ∧ j1 + k1 = j2 then mergeAdjacent rest (i1, j1, k1 + k2) acc
    else if k1 ≠ 0 then mergeAdjacent rest (i2, j2, k2) (acc ++ [(i1, j1, k1)])
    else mergeAdjacent rest (i2, j2, k2) acc

/-- difflib's `get_matching_blocks` for `SequenceMatcher(None, a, b)`: the
sorted, adjacency-merged matching blocks, terminated by the sentinel
`(len(a), len(b), 0)`. -/
def get_matching_blocks (a b : List Char) : List (Nat × Nat × Nat) :=
  let blocks := sortBlocks (gmbLoop a b (2 * a.length + 2) [(0, a.length, 0, b.length)] [])
  mergeAdjacent blocks (0, 0, 0) [] ++ [(a.length, b.length, 0)]

/-- difflib's `SequenceMatcher.ratio()`: `2.0 * M / T` with `M` the total size
of the matching blocks and `T` the combined length, modelled as an exact
rational.  (Python raises `ZeroDivisionError` when both sequences are empty; in
`ℚ` the value is 0.  The fuzzywuzzy call sites reach this case only through
the `s1 == s2` shortcut, which never calls `ratio`.) -/
def sm_ratio (a b : List Char) : ℚ :=
  let matched := ((get_matching_blocks a b).map (fun t => t.2.2)).sum
  2 * (matched : ℚ) / ((a.length : ℚ) + (b.length : ℚ))

/-- fuzzywuzzy's `utils.intr`: `int(round(n))`, i.e. Python's banker's
rounding (round half to even). -/
def intr (q : ℚ) : ℤ :=
  let f := ⌊q⌋
  if q - f > 1 / 2 then f + 1
  else if q - f < 1 / 2 then f
  else if f % 2 = 0 then f else f + 1

/-- The per-block loop of `fuzz.partial_ratio`: for each matching block,
compare `shorter` against the window `longer[long_start : long_start + len(shorter)]`;
return 100 early when a window's ratio exceeds .995, otherwise round
`100 * max(scores)` at the end.  (`scores` is never empty there — the sentinel
block always contributes — and all scores are nonnegative, so folding `max`
from 0 agrees with Python's `max(scores)`.) -/
def pRatioBlocks (shorter longer : List Char) :
    List (Nat × Nat × Nat) → List ℚ → ℤ
  | [], scores => intr (100 * scores.foldr max 0)
  | (i, j, _) :: rest, scores =>
    let long_start := j - i
    let long_substr := (longer.drop long_start).take shorter.length
    let r := sm_ratio shorter long_substr
    if r > 995 / 1000 then 100
    else pRatioBlocks shorter longer rest (scores ++ [r])

/-- fuzzywuzzy's `fuzz.partial_ratio(s1, s2)`.  The `@check_for_none` and
`@check_for_equal` decorators short-circuit equal inputs to 100 (`None` cannot
occur here); otherwise the shorter string is slid over the longer one along the
matching blocks of `SequenceMatcher(None, shorter, longer)`. -/
def pRatio (s1 s2 : String) : ℤ :=
  if s1 = s2 then 100
  else
    let p := if s1.length ≤ s2.length then (s1.data, s2.data) else (s2.data, s1.data)
    pRatioBlocks p.1 p.2 (get_matching_blocks p.1 p.2) []

/-- Python's `str.lower()`: character-wise lowercasing, written on the
underlying character list so that it evaluates by `decide` / `rfl`.
(`Char.toLower`, like Python's `str.lower`, maps `A`-`Z` to `a`-`z`; they agree
on ASCII, and every subject line this development evaluates is ASCII.) -/
def py_lower (s : String) : String :=
  ⟨s.data.map Char.toLower⟩

/-- `is_similar` (src/main.py lines 44-45):
`any(fuzz.partial_ratio(new_subject.lower(), old.lower()) >= threshold for old in existing_subjects)`.
The Python parameter defaults to `threshold=85`; every call site in the script
uses the default, and the Lean call sites below pass 85 explicitly. -/
def is_similar (new_subject : String) (existing_subjects : List String) (threshold : ℤ) : Bool :=
  existing_subjects.any (fun old => decide (pRatio (py_lower new_subject) (py_lower old) ≥ threshold))

/-! ## The dedup/retry loop (src/main.py lines 251-286)

A theme is a `(subject, description)` pair, as in the source's tuples.  The
generation callback (`generate_new_themes(segment)`, an OpenAI chat call) is
modelled as a function `gen : Nat → List (String × String)` from the call index
to the batch that call returns: `gen 0` is the first call (line 258) and
`gen (i+1)` is the batch returned by the `i`-th retry (line 268).
-/

/-- The first filtering pass (line 259-260):
`[(s, d) for s, d in new_themes if not is_similar(s, recent_subjects)]`. -/
def first_pass (new_themes : List (String × String)) (recent_subjects : List String) :
    List (String × String) :=
  new_themes.filter (fun sd => ! is_similar sd.1 recent_subjects 85)

/-- The body of one retry (lines 269-272): fold over the retry batch, appending
each non-similar candidate to `deduped` and its subject to `recent_subjects`. -/
def retry_filter (retry : List (String × String))
    (deduped : List (String × String)) (recent_subjects : List String) :
    List (String × String) × List String :=
  retry.foldl
    (fun acc sd =>
      if is_similar sd.1 acc.2 85 then acc
      else (acc.1 ++ [sd], acc.2 ++ [sd.1]))
    (deduped, recent_subjects)

/-- The retry loop (lines 263-273) of the intended code, generalised over the
spec's `minimumAccepted` (hard-coded 3 in the `while` condition) and with the
remaining retry budget as the structural recursion argument
(`budget = maxRetries - retries`, so `budget > 0` iff `retries < maxRetries`).
Returns the final `deduped`, `recent_subjects` and `retries`. -/
def retry_loop (gen : Nat → List (String × String)) (minimumAccepted : Nat) :
    Nat → Nat → List (String × String) → List String →
    List (String × String) × List String × Nat
  | 0, retries, deduped, recent_subjects => (deduped, recent_subjects, retries)
  | budget + 1, retries, deduped, recent_subjects =>
    if deduped.length < minimumAccepted then
      let p := retry_filter (gen (retries + 1)) deduped recent_subjects
      retry_loop gen minimumAccepted budget (retries + 1) p.1 p.2
    else (deduped, recent_subjects, retries)

/-- The per-segment dedup/retry core of `run_monthly_theme_generation`
(lines 258-273) under the evident rename `deduped_themes` -> `deduped`
(see the header comment; the literal code raises `NameError` instead, modelled
by `run_segment_literal`).  Generalised over `minimumAccepted` and
`maxRetries`; the source hard-codes both to 3. -/
def run_core (gen : Nat → List (String × String)) (recent_subjects : List String)
    (minimumAccepted maxRetries : Nat) :
    List (String × String) × List String × Nat :=
  let new_themes := gen 0
  let deduped := first_pass new_themes recent_subjects
  retry_loop gen minimumAccepted maxRetries 0 deduped recent_subjects

/-- The dedup/retry core with the source's hard-coded constants
(`minimumAccepted = 3` from `while len(deduped) < 3`, `max_retries = 3`). -/
def run_segment (gen : Nat → List (String × String)) (recent_subjects : List String) :
    List (String × String) × List String × Nat :=
  run_core gen recent_subjects 3 3

/-- The new-theme portion of `final_set` (line 277): `deduped[:3]`. -/
def final_new_themes (gen : Nat → List (String × String)) (recent_subjects : List String) :
    List (String × String) :=
  (run_segment gen recent_subjects).1.take 3

/-- A Python runtime error, as far as this development needs one. -/
inductive PyError where
  | nameError (name : String)
deriving DecidableEq, Repr

/-- The literal per-segment code (lines 258-277) as written: line 259 binds
`deduped_themes`, but the `while` condition on line 265 reads `len(deduped)`
and `deduped` is bound nowhere, so evaluation raises
`NameError: name 'deduped' is not defined` before the loop body, the sampling
of reusable themes or the `final_set` concatenation can run. -/
def run_segment_literal (gen : Nat → List (String × String)) (recent_subjects : List String) :
    Except PyError (List (String × String)) :=
  let new_themes := gen 0
  let deduped_themes := first_pass new_themes recent_subjects
  let _ := deduped_themes
  Except.error (PyError.nameError "deduped")

/-- The retry loop of the intended code with a fallible generation callback:
there is no `try`/`except` anywhere in `run_monthly_theme_generation`, so an
exception raised by a retry call aborts the loop and propagates. -/
def retry_loop_exc {ε : Type} (gen : Nat → Except ε (List (String × String)))
    (minimumAccepted : Nat) :
    Nat → Nat → List (String × String) → List String →
    Except ε (List (String × String) × List String × Nat)
  | 0, retries, deduped, recent_subjects => Except.ok (deduped, recent_subjects, retries)
  | budget + 1, retries, deduped, recent_subjects =>
    if deduped.length < minimumAccepted then
      match gen (retries + 1) with
      | Except.error e => Except.error e
      | Except.ok batch =>
        let p := retry_filter batch deduped recent_subjects
        retry_loop_exc gen minimumAccepted budget (retries + 1) p.1 p.2
    else Except.ok (deduped, recent_subjects, retries)

/-- The dedup/retry core with a fallible generation callback (exceptions
propagate unchanged, both from the first call and from retries). -/
def run_core_exc {ε : Type} (gen : Nat → Except ε (List (String × String)))
    (recent_subjects : List String) (minimumAccepted maxRetries : Nat) :
    Except ε (List (String × String) × List String × Nat) :=
  match gen 0 with
  | Except.error e => Except.error e
  | Except.ok new_themes =>
    retry_loop_exc gen minimumAccepted maxRetries 0
      (first_pass new_themes recent_subjects) recent_subjects

/-! ## Prompt construction (src/main.py lines 91-151) and completion parsing
(lines 154-180)

`build_prompt(segment, extra_prompt="")` reads the clock through
`get_month_year()`; that read is made an explicit `month_year` argument here.
The f-string template interpolates `{month_year}` in the middle and
`{extra_prompt}` as its final characters, so the built prompt is literally a
concatenation ending in `extra_prompt`.
-/

/-- The `persona_context` branch of `build_prompt` (lines 94-116). -/
def persona_context (segment : String) : String :=
  if segment = "Pre-Retiree" then
    "Tailor these suggestions to pre-retirees like Paul and Lisa Harrington—smart, capable Australians in their late 50s juggling work, family, and finances. They're time-poor but financially comfortable. They have ~$1.3m in super, savings, and a mortgage nearly paid off. Their goal is lifestyle flexibility—travel, time with family, scaling back work—but they want to feel confident they’re making smart decisions with their resources.
            Themes should help this group:
            - Simplify complex financial lives (e.g. multiple super accounts, offset loans, investments, business equity)
            - Know when and how to reduce work without risking future security
            - Understand what “getting it right” looks like for people who’ve done well but aren’t sure they’re on track
            - Avoid procrastination and get clarity before it’s too late
            - Frame advice as a strategic edge, not a remedial fix"
  else if segment = "Retiree" then
    "Tailor these suggestions to recent retirees like Alan and Margaret Rowe—calm, organised Australians in their mid-to-late 60s who have done well financially and are now focused on drawing down wisely. Alan is systems-focused and likes logic and models. Margaret is reflective and values connection and clarity. They have ~$1.7m in super (in pension phase), term deposits, and shares, and no mortgage. They value independence, simplicity, and knowing they’re doing it right.
            Themes should help this group:
            - Draw confidently from super without fear of running out
            - Understand the ripple effects of gifting, downsizing, or market volatility
            - Simplify estate planning and administrative complexity
            - Balance being careful with actually enjoying their money
            - Reduce decision fatigue through visual models or steady plans
            - Frame advice as a safeguard for the future, not a disruption to the present"
  else ""

/-- The f-string template of `build_prompt` up to (but excluding) the
`{month_year}` interpolation. -/
def prompt_body_1 : String :=
  "You are helping develop monthly marketing email themes for Hatch Financial Planning, based in Logan, Queensland. These are not full emails—just high-quality topic ideas that could later be expanded into full emails.

        Audience: Financially successful Australians with $1M+ in investable assets, excluding their home. They’re thoughtful, time-poor, and value clarity and confidence in their financial decision-making. They’re not asking “Can we retire?” but “Can we afford to say yes to the life we want?”

        Your task: Generate 3–5 email themes tailored to this audience. Each theme must include:
        - Subject: A short, clear subject line (no clever wordplay, clickbait, or vague headlines)
        - Description: One concise sentence explaining what the email would help the reader understand, solve, or reflect on. It must clearly address a specific belief, pain point, or opportunity.

        Tone: Professional, plainspoken, and reassuring. Use clear, conversational Australian English. Avoid sales language, fluff, financial jargon, or technical complexity. These readers want clarity, not overwhelm.

        Focus areas you can explore:
        - Timing and decision-making
        - Superannuation use and drawdown
        - Complexity vs. clarity in financial life
        - Confidence vs. second-guessing
        - Trade-offs around retirement lifestyle (e.g. travel, gifting, scaling back work)
        - Regret avoidance and peace of mind
        - Missed opportunities or hidden risks
        - Managing market or health uncertainty
        - Balancing logic with personal values

        Guidelines:
        - Include at least one theme tied to common financial planning questions or concerns specific to the current month: "

/-- The f-string template of `build_prompt` between the `{month_year}` and
`{extra_prompt}` interpolations; `{extra_prompt}` is the template's very last
piece, so the built prompt ends with `extra_prompt`. -/
def prompt_body_2 : String :=
  ".
        - Use only standard hyphens (-), not em or en dashes.
        - Format your output exactly like this for each theme:
        Subject: [subject line]
        Description: [one sentence explanation]
        - Return only the themes—no commentary, lists, or explanations before or after.

        "

/-- `build_prompt(segment, extra_prompt)` (lines 91-151), with the
`get_month_year()` clock read passed in as `month_year`. -/
def build_prompt (month_year segment extra_prompt : String) : String :=
  persona_context segment ++ prompt_body_1 ++ month_year ++ prompt_body_2 ++ extra_prompt

/-- Everything after the first `:` of a line, stripped — Python's
`line.split(":", 1)[1].strip()`.  (Only ever applied to lines that start with
`subject:`/`description:` case-insensitively, so a `:` is present.) -/
def after_colon (line : String) : String :=
  (String.intercalate ":" (line.splitOn ":").tail).trim

/-- The per-block line scan of `generate_new_themes` (lines 170-176): the last
`Subject:` line and the last `Description:` line win, matched
case-insensitively on the prefix. -/
def parse_block (block : String) : String × String :=
  (block.splitOn "\n").foldl
    (fun acc line =>
      if line.toLower.startsWith "subject:" then (after_colon line, acc.2)
      else if line.toLower.startsWith "description:" then (acc.1, after_colon line)
      else acc)
    ("", "")

/-- The accumulation of `generate_new_themes` (lines 167-179): keep a block's
pair when both fields are nonempty and the subject was not seen before
(exact-string within-batch dedup via `seen_subjects`). -/
def gnt_fold (blocks : List String) : List (String × String) :=
  (blocks.foldl
    (fun (acc : List (String × String) × List String) block =>
      let sd := parse_block block
      if sd.1 ≠ "" ∧ sd.2 ≠ "" ∧ sd.1 ∉ acc.2 then (acc.1 ++ [sd], acc.2 ++ [sd.1])
      else acc)
    ([], [])).1

/-- `generate_new_themes(segment)` (lines 154-180) with the chat-completion API
modelled as `completion : String → String` from prompt to the message content.
Note the call `build_prompt(segment)` at line 155: `extra_prompt` is left at
its default `""`. -/
def generate_new_themes (segment month_year : String) (completion : String → String) :
    List (String × String) :=
  let prompt := build_prompt month_year segment ""
  let raw_output := (completion prompt).trim
  let blocks := ((raw_output.splitOn "\n\n").map String.trim).filter (fun b => b ≠ "")
  gnt_fold blocks

/-- The prompt that a call to `generate_new_themes(segment)` sends to the API:
`build_prompt(segment)` with `extra_prompt` defaulting to `""` (line 155). -/
def gnt_prompt (month_year segment : String) : String :=
  build_prompt month_year segment ""

/-- The string assigned to `extra` on line 267 of the retry body.  The source
never passes it on: line 268 calls `generate_new_themes(segment)`. -/
def retry_extra : String := "Add more unconventional or creative themes this time."

/-- The prompt actually used by a retry: line 268 calls
`generate_new_themes(segment)` with no extra argument, so the retry prompt is
exactly the first-attempt prompt. -/
def retry_prompt (month_year segment : String) : String :=
  gnt_prompt month_year segment

/-! ## The module-level day guard (src/main.py lines 21-24, 285-286)

Lines 21-24 run at module load: if `now.day != 1` (Australia/Brisbane clock),
the script prints a skip message and calls `exit()`, so none of the later code
(API configuration, theme generation, Airtable reads/writes, the notification
email) executes.  Only when the day is 1 and the module is run as a script
(`__name__ == "__main__"`, line 285) does `run_monthly_theme_generation` run.
The observable effects are modelled as an action trace; the clock is modelled
by passing the current day of month as a parameter.
-/

/-- The kinds of externally visible effect the script can perform after the
guard. -/
inductive ScriptAction where
  | themeGeneration
  | datastoreRead
  | datastoreWrite
  | emailSend
deriving DecidableEq, Repr

/-- The trace of effects of loading the module on day-of-month `day`
(Australia/Brisbane): `exit()` on line 24 yields the empty trace whenever
`day ≠ 1`; otherwise `run_monthly_theme_generation` (whose effects are
abstracted as `runTrace`) executes iff the module is run as a script. -/
def module_trace (day : Nat) (isMain : Bool) (runTrace : List ScriptAction) : List ScriptAction :=
  if day ≠ 1 then [] else if isMain then runTrace else []

/-! ## Helper lemmas about the retry loop -/

/-- Acceptance chains: each entry's subject is dissimilar to the reference list
as it stood when the entry was accepted, and its subject is appended before the
next entry is considered. -/
def chain_ok (recent : List String) : List (String × String) → Prop
  | [] => True
  | sd :: rest => is_similar sd.1 recent 85 = false ∧ chain_ok (recent ++ [sd.1]) rest

theorem is_similar_append (s : String) (l1 l2 : List String) (t : ℤ) :
    is_similar s (l1 ++ l2) t = (is_similar s l1 t || is_similar s l2 t) := by
  simp [is_similar, List.any_append]

theorem chain_ok_mem {recent : List String} {e : List (String × String)}
    (hc : chain_ok recent e) {sd : String × String} (hm : sd ∈ e) :
    is_similar sd.1 recent 85 = false := by
  induction e generalizing recent with
  | nil => cases hm
  | cons hd tl ih =>
    obtain ⟨h1, h2⟩ := hc
    rcases List.mem_cons.mp hm with h | h
    · exact h ▸ h1
    · have := ih h2 h
      rw [is_similar_append] at this
      exact (Bool.or_eq_false_iff.mp this).1

theorem chain_ok_append {recent : List String} {e1 e2 : List (String × String)}
    (h1 : chain_ok recent e1) (h2 : chain_ok (recent ++ e1.map Prod.fst) e2) :
    chain_ok recent (e1 ++ e2) := by
  induction e1 generalizing recent with
  | nil => simpa using h2
  | cons hd tl ih =>
    obtain ⟨ha, hb⟩ := h1
    refine ⟨ha, ih hb ?_⟩
    simpa [List.append_assoc] using h2

theorem retry_filter_cons (sd : String × String) (rest : List (String × String))
    (d : List (String × String)) (r : List String) :
    retry_filter (sd :: rest) d r =
      if is_similar sd.1 r 85 then retry_filter rest d r
      else retry_filter rest (d ++ [sd]) (r ++ [sd.1]) := by
  by_cases h : is_similar sd.1 r 85 <;> simp [retry_filter, h]

theorem retry_filter_spec (batch : List (String × String))
    (d : List (String × String)) (r : List String) :
    ∃ e, retry_filter batch d r = (d ++ e, r ++ e.map Prod.fst) ∧ chain_ok r e := by
  induction batch generalizing d r with
  | nil => exact ⟨[], by simp [retry_filter], trivial⟩
  | cons sd rest ih =>
    rw [retry_filter_cons]
    by_cases h : is_similar sd.1 r 85
    · obtain ⟨e, he, hc⟩ := ih d r
      exact ⟨e, by simp [h, he], hc⟩
    · obtain ⟨e, he, hc⟩ := ih (d ++ [sd]) (r ++ [sd.1])
      refine ⟨sd :: e, ?_, ?_⟩
      · simp [h, he, List.append_assoc]
      · exact ⟨Bool.of_not_eq_true h, hc⟩

theorem retry_loop_spec (gen : Nat → List (String × String)) (minA : Nat) :
    ∀ (budget retries : Nat) (d : List (String × String)) (r : List String),
    ∃ e retries',
      retry_loop gen minA budget retries d r = (d ++ e, r ++ e.map Prod.fst, retries') ∧
      chain_ok r e := by
  intro budget
  induction budget with
  | zero => intro retries d r; exact ⟨[], retries, by simp [retry_loop], trivial⟩
  | succ b ih =>
    intro retries d r
    by_cases h : d.length < minA
    · obtain ⟨e1, he1, hc1⟩ := retry_filter_spec (gen (retries + 1)) d r
      obtain ⟨e2, retries', he2, hc2⟩ := ih (retries + 1) (d ++ e1) (r ++ e1.map Prod.fst)
      refine ⟨e1 ++ e2, retries', ?_, chain_ok_append hc1 hc2⟩
      simp [retry_loop, h, he1, he2, List.append_assoc]
    · exact ⟨[], retries, by simp [retry_loop, h], trivial⟩

/-! ## The claims -/

/-- C2: a candidate subject is classified as a duplicate iff some reference
subject has case-insensitive fuzzy partial-ratio similarity at least the
threshold 85 with it; against an empty reference list no subject is a
duplicate. -/
theorem C2_is_similar_iff (s : String) (refs : List String) :
    (is_similar s refs 85 = true ↔
      ∃ old ∈ refs, (85 : ℤ) ≤ pRatio (py_lower s) (py_lower old)) ∧
    is_similar s [] 85 = false := by
  constructor
  · simp [is_similar, List.any_eq_true, ge_iff_le]
  · rfl

/-- C3 counterexample: with `referenceSubjects = []`, the first filtering pass
(line 259-260) keeps BOTH of Scenario A's candidates, not just the first: the
pass filters only against `recent_subjects` and performs no within-batch
near-duplicate dropping, so the case-variant subject survives. -/
def scenarioA : List (String × String) :=
  [("Clarity in Retirement", "What clear retirement planning looks like."),
   ("Clarity In Retirement", "What clear retirement planning looks like, again.")]

/-- C3 is false as stated: on Scenario A's input the code's first filtering
pass keeps both candidates, though their subjects are case-insensitive exact
duplicates (partial-ratio 100 ≥ 85). -/
theorem C3_counterexample :
    first_pass scenarioA [] = scenarioA ∧
    first_pass scenarioA [] ≠
      [("Clarity in Retirement", "What clear retirement planning looks like.")] ∧
    is_similar "Clarity In Retirement" ["Clarity in Retirement"] 85 = true := by
  exact ⟨rfl, by decide, by decide⟩

/-- C3 amended: the first filtering pass keeps exactly the candidates that are
not near-duplicates of `referenceSubjects`, preserving original order — with no
within-batch near-duplicate dropping. -/
theorem C3_amended (cands : List (String × String)) (refs : List String) :
    (first_pass cands refs).Sublist cands ∧
    ∀ sd, sd ∈ first_pass cands refs ↔ sd ∈ cands ∧ is_similar sd.1 refs 85 = false := by
  refine ⟨List.filter_sublist _, fun sd => ?_⟩
  simp [first_pass, List.mem_filter]

/-- C1 counterexample input: the first generation call returns three themes,
two of which have case-insensitively identical (hence near-duplicate)
subjects. -/
def dup_gen : Nat → List (String × String) := fun _ =>
  [("Clarity in Retirement", "A first look at what clarity means."),
   ("Clarity In Retirement", "A second look at the same idea."),
   ("Managing Market Uncertainty", "How to stay steady when markets move.")]

/-- C1 is false as stated: with empty `referenceSubjects`, the accepted output
of the dedup/retry loop contains two entries whose subjects are mutual
near-duplicates (case-insensitive exact match, partial-ratio 100 ≥ 85).  The
first filtering pass neither drops within-batch near-duplicates nor appends the
accepted subjects to the reference list, so both survive. -/
theorem C1_counterexample :
    (run_segment dup_gen []).1.map Prod.fst =
      ["Clarity in Retirement", "Clarity In Retirement", "Managing Market Uncertainty"] ∧
    is_similar "Clarity in Retirement" ["Clarity In Retirement"] 85 = true ∧
    is_similar "Clarity In Retirement" ["Clarity in Retirement"] 85 = true := by
  exact ⟨by decide, by decide, by decide⟩

/-- C1 amended: the loop's output is the first filtering pass followed by the
retry acceptances; every first-pass entry is dissimilar to the original
`referenceSubjects`, and the retry acceptances form a chain in which each
subject is dissimilar to the original `referenceSubjects` extended by all
earlier retry acceptances (`chain_ok`).  Consequently every accepted subject is
dissimilar to the original `referenceSubjects`.  First-pass subjects, however,
are never appended to the reference list, so near-duplicates may co-exist
within the first batch, or between the first batch and retry acceptances. -/
theorem C1_amended (gen : Nat → List (String × String)) (recent0 : List String)
    (minA maxR : Nat) :
    ∃ extra : List (String × String),
      (run_core gen recent0 minA maxR).1 = first_pass (gen 0) recent0 ++ extra ∧
      (run_core gen recent0 minA maxR).2.1 = recent0 ++ extra.map Prod.fst ∧
      chain_ok recent0 extra ∧
      ∀ sd ∈ (run_core gen recent0 minA maxR).1, is_similar sd.1 recent0 85 = false := by
  obtain ⟨e, retries', he, hc⟩ :=
    retry_loop_spec gen minA maxR 0 (first_pass (gen 0) recent0) recent0
  refine ⟨e, ?_, ?_, hc, ?_⟩
  · simp [run_core, he]
  · simp [run_core, he]
  · intro sd hm
    rw [show (run_core gen recent0 minA maxR).1 = first_pass (gen 0) recent0 ++ e by
      simp [run_core, he]] at hm
    rcases List.mem_append.mp hm with h | h
    · have := (List.mem_filter.mp h).2
      simpa using this
    · exact chain_ok_mem hc h

/-- C4: the claim is right about the intended loop, but the literal code
raises: with a callback that returns the empty list on the first call and on
every retry, the literal lines 258-265 raise `NameError` (the filtered list is
bound to `deduped_themes` while the `while` condition reads `deduped`), whereas
the rename-fixed loop returns the empty accepted list after exactly 3 retries,
without raising. -/
theorem C4_code_bug :
    run_segment_literal (fun _ => []) [] = Except.error (PyError.nameError "deduped") ∧
    run_segment (fun _ => []) [] = ([], [], 3) := by
  exact ⟨rfl, rfl⟩

/-- C5: the claim is right about the comment on line 262 and the spec, but the
code never delivers the hint: line 267 assigns `extra` and line 268 calls
`generate_new_themes(segment)` without passing it, so the retry prompt is
exactly the first-attempt prompt (`build_prompt` with `extra_prompt = ""`),
not a prompt extended with the creative-hint text — even though `build_prompt`
would have appended a nonempty hint verbatim at the end had it been passed. -/
theorem C5_code_bug :
    retry_prompt "July 2025" "Pre-Retiree" = gnt_prompt "July 2025" "Pre-Retiree" ∧
    (∀ month_year segment extra_prompt,
      build_prompt month_year segment extra_prompt =
        build_prompt month_year segment "" ++ extra_prompt) ∧
    retry_extra ≠ "" ∧
    retry_prompt "July 2025" "Pre-Retiree" ≠ build_prompt "July 2025" "Pre-Retiree" retry_extra := by
  have hsplit : ∀ month_year segment extra_prompt,
      build_prompt month_year segment extra_prompt =
        build_prompt month_year segment "" ++ extra_prompt := by
    intro m s e
    simp [build_prompt, String.append_assoc]
  refine ⟨rfl, hsplit, by decide, ?_⟩
  intro h
  rw [retry_prompt, gnt_prompt, hsplit "July 2025" "Pre-Retiree" retry_extra] at h
  have hlen := congrArg String.length h
  rw [String.length_append] at hlen
  have : retry_extra.length = 0 := by omega
  exact absurd this (by decide)

/-- C6: the accepted-theme output passed onward by the loop (`deduped[:3]` at
line 277) has length at most `minimumAccepted` plus the first pass's excess
over it, and it is truncated to exactly `min 3` of what is available — never
below 3 unless fewer than 3 themes are available after retries. -/
theorem C6_bound (gen : Nat → List (String × String)) (recent0 : List String) :
    (final_new_themes gen recent0).length ≤
      3 + ((first_pass (gen 0) recent0).length - 3) ∧
    (final_new_themes gen recent0).length = min 3 (run_segment gen recent0).1.length := by
  have h : (final_new_themes gen recent0).length = min 3 (run_segment gen recent0).1.length := by
    simp [final_new_themes]
  exact ⟨by omega, h⟩

/-- C7: when the first generation call already yields at least 3 candidates
surviving the filter against `referenceSubjects`, the loop performs no retry
(the retry counter stays 0) and the result does not depend on what the
callback would return on any later call — i.e. the callback is consulted
exactly once, at call index 0. -/
theorem C7_no_retry (gen gen' : Nat → List (String × String)) (recent0 : List String)
    (h3 : 3 ≤ (first_pass (gen 0) recent0).length)
    (hg : gen' 0 = gen 0) :
    (run_segment gen recent0).2.2 = 0 ∧
    run_segment gen' recent0 = run_segment gen recent0 := by
  have hlt : ¬ (first_pass (gen 0) recent0).length < 3 := by omega
  constructor
  · simp [run_segment, run_core, retry_loop, hlt]
  · simp [run_segment, run_core, retry_loop, hg, hlt]

/-- C7 witness input: a first call returning three candidates that all survive
against empty `referenceSubjects`. -/
def gen_three : Nat → List (String × String) := fun _ =>
  [("Super Drawdown Timing", "When to start drawing from super."),
   ("Estate Planning Basics", "Getting the paperwork right."),
   ("Travel Budget Confidence", "Spending on travel without second-guessing.")]

/-- C7 witness alternative callback: agrees with `gen_three` on the first call
and differs on every retry call. -/
def gen_three' : Nat → List (String × String) := fun n =>
  if n = 0 then gen_three 0 else []

/-- C7 witness: `C7_no_retry` applied at a concrete input. -/
theorem C7_witness :
    3 ≤ (first_pass (gen_three 0) []).length ∧
    gen_three' 0 = gen_three 0 ∧
    ((run_segment gen_three []).2.2 = 0 ∧
      run_segment gen_three' [] = run_segment gen_three []) :=
  ⟨by decide, rfl, C7_no_retry gen_three gen_three' [] (by decide) rfl⟩

/-- C8: the claim that the component raises no errors of its own is wrong —
the literal loop raises `NameError: name 'deduped' is not defined` on every
invocation that reaches line 265 (first conjunct).  The other half of the
claim is right: there is no catch/translate layer, so a callback exception
propagates unchanged whether it is raised on the first call (second conjunct)
or on a retry (third conjunct); and an empty callback result is ordinary data
(see `C4_code_bug`). -/
theorem C8_code_bug :
    run_segment_literal
        (fun _ => [("Safe Withdrawal Rates", "How much is safe to draw each year.")])
        ["Budgeting For Retirement"] = Except.error (PyError.nameError "deduped") ∧
    run_core_exc (fun _ => Except.error "APIConnectionError") [] 3 3 =
      Except.error "APIConnectionError" ∧
    run_core_exc (fun n => if n = 0 then Except.ok [] else Except.error "RateLimitError")
        [] 3 3 = Except.error "RateLimitError" := by
  exact ⟨rfl, rfl, rfl⟩

/-- C9: with no retry budget (`maxRetries = 0`) and a callback returning the
same candidates on every call, the loop returns exactly the first filtering
pass, unchanged reference list and zero retries — a deterministic function of
`candidates` and `referenceSubjects`, so any two runs on the same inputs agree. -/
theorem C9_idempotent (cands : List (String × String)) (recent0 : List String) :
    run_core (fun _ => cands) recent0 3 0 = (first_pass cands recent0, recent0, 0) ∧
    run_core (fun _ => cands) recent0 3 0 = run_core (fun _ => cands) recent0 3 0 := by
  exact ⟨rfl, rfl⟩

/-- C10: whenever the day of month (Australia/Brisbane) is not 1, the
module-level guard (lines 21-24) calls `exit()` at load time, so the script
performs no theme generation, no datastore read or write and no email send;
in particular any theme-generation effect implies the day is 1. -/
theorem C10_guard (day : Nat) (isMain : Bool) (runTrace : List ScriptAction)
    (h : day ≠ 1) :
    module_trace day isMain runTrace = [] ∧
    (∀ a : ScriptAction, a ∉ module_trace day isMain runTrace) ∧
    (∀ (d : Nat) (m : Bool) (t : List ScriptAction),
      ScriptAction.themeGeneration ∈ module_trace d m t → d = 1) := by
  have hz : module_trace day isMain runTrace = [] := by simp [module_trace, h]
  refine ⟨hz, by simp [hz], ?_⟩
  intro d m t hm
  by_contra hd
  rw [show module_trace d m t = [] by simp [module_trace, hd]] at hm
  cases hm

/-- C10 witness: `C10_guard` applied on day 2 with a run trace containing
every kind of effect. -/
theorem C10_witness :
    (2 : Nat) ≠ 1 ∧
    (module_trace 2 true
        [ScriptAction.datastoreRead, ScriptAction.themeGeneration,
         ScriptAction.datastoreWrite, ScriptAction.emailSend] = [] ∧
      (∀ a : ScriptAction, a ∉ module_trace 2 true
        [ScriptAction.datastoreRead, ScriptAction.themeGeneration,
         ScriptAction.datastoreWrite, ScriptAction.emailSend]) ∧
      (∀ (d : Nat) (m : Bool) (t : List ScriptAction),
        ScriptAction.themeGeneration ∈ module_trace d m t → d = 1)) :=
  ⟨by decide,
    C10_guard 2 true
      [ScriptAction.datastoreRead, ScriptAction.themeGeneration,
       ScriptAction.datastoreWrite, ScriptAction.emailSend] (by decide)⟩
